import Mathlib

/-
  Verification of the expression/value core of the ysh shell
  (files: include/entity.hpp, entity implementation, prelude/typing headers,
  strutils, and the lexer/reorderer/evaluator translation unit).

  Shallow embedding conventions, applied uniformly and noted again at the
  definitions they concern:

  * `int_t` (`long long`) is modelled as unbounded `Int`; 64-bit overflow is
    not modelled (no claim depends on it).  C++ integer division truncates
    toward zero, which is `Int.tdiv` / `Int.tmod`.
  * `real_t` (`long double`) is modelled as `ℚ`.  No claim depends on
    floating-point rounding; `std::pow` is modelled exactly only for integer
    exponents (`std_pow` below), and is not referenced by any claim.
  * `func_t` (`std::function<entity (entity)>`): every `func_t` value the
    modelled code can create is a constant function (`operator_abstract`
    returns a lambda that ignores its argument and returns `entity(0)`;
    `entity::operator func_t` wraps a captured value in a constant lambda),
    so `func_t` is modelled as the returned constant (`Value.func ret`).
  * The templated constructor `entity::entity(T&&)` value-initialises
    `m_value` to a null `unique_ptr` and then assigns `*m_value = ...`.
    Taken literally this is a null dereference on every construction; we
    model the assignment's evident content (allocate and store the payload,
    set the matching tag), which is what `entity(entity const&)` does with
    `new value_type(*other.m_value)`.  The per-operator logic the claims are
    about is modelled exactly.
  * `ysh::string`'s find wrappers return `begin() + <index>` where the index
    may be `std::string_view::npos`; all call sites compare the result with
    `end()`.  We read a failed search as the end iterator (the only reading
    under which `find(...) == end()` detects exhaustion); the raw
    `begin() + npos` is out of range.
  * Copying an `entity` copies the contained variant alternative; copying a
    `tuple_t` goes through `tuple_t::operator=`, which pushes the source's
    elements head-to-tail onto the front of the destination and therefore
    REVERSES their order.  `entity_copy` below reproduces this (it reverses
    every tuple layer); it is an involution, which is proved and used where
    the source copies an entity twice.
  * Exceptions (`throw`), out-of-bounds vector accesses and other fatal
    events are modelled with `Option`/`Except` (`none` / `.error`), never
    with a default value.
-/

namespace Ysh

/-- Payload of `entity::value_type`, the variant
`int_t | real_t | str_t | list_t | tuple_t | func_t | error_t`.
A `tuple` holds its elements head-to-tail. -/
inductive Value : Type where
  | int (n : Int)
  | real (q : ℚ)
  | str (s : String)
  | list (l : List Value)
  | tuple (l : List Value)
  | func (ret : Value)
  | error (msg : String)

/-- Enumeration `entity::type`. -/
inductive Tag : Type where
  | INT | REAL | STR | LIST | TUPLE | FUNC | ERROR
  deriving DecidableEq

/-- Tag assigned by the `entity` constructor chain for each payload case. -/
def Value.tag : Value → Tag
  | .int _ => .INT
  | .real _ => .REAL
  | .str _ => .STR
  | .list _ => .LIST
  | .tuple _ => .TUPLE
  | .func _ => .FUNC
  | .error _ => .ERROR

/-- A full `entity`: the type tag `m_type` plus the payload behind `m_value`.
The two fields are independent because `entity::operator=` updates only the
tag (see `entity_assign`). -/
structure Entity : Type where
  ty : Tag
  val : Value

mutual

/-- Copy construction of an `entity` (`m_value(new value_type(*other.m_value))`):
the variant alternative is copy-constructed.  Copying a `list_t` copies each
element; copying a `tuple_t` runs `tuple_t::operator=` on a default-constructed
tuple, which pushes the source elements head-to-tail onto the front and hence
reverses the element order at every tuple layer. -/
def entity_copy : Value → Value
  | .int n => .int n
  | .real q => .real q
  | .str s => .str s
  | .list l => .list (entity_copy_list l)
  | .tuple l => .tuple (entity_copy_list l).reverse
  | .func r => .func r
  | .error m => .error m

/-- Elementwise `entity` copy of a `std::vector<entity>` / of the entities
stored along a tuple spine. -/
def entity_copy_list : List Value → List Value
  | [] => []
  | v :: vs => entity_copy v :: entity_copy_list vs

end

/-- Implementation of `entity::operator=(entity const&)` for two distinct
objects: `m_type = other.m_type;` is executed, but the payload copy
`m_value = other.m_value;` is commented out in the source, so the left
operand keeps its old payload.  (The `this == &other` guard compares
addresses and only fires on physical self-assignment.) -/
def entity_assign (a b : Entity) : Entity :=
  { ty := b.ty, val := a.val }

/-- Name used in diagnostics for each payload case (`entity::name`). -/
def type_name : Value → String
  | .int _ => "Int"
  | .real _ => "Real"
  | .str _ => "Str"
  | .list _ => "List"
  | .tuple _ => "Tuple"
  | .func _ => "Func"
  | .error _ => "Error"

/-- Joining of the argument-type names inside `operation_error`: the loop
prints all but the last followed by ", ", then `arg_types.back()`.  The
source loop underflows for an empty vector; no modelled call site passes an
empty list. -/
def join_args : List String → String
  | [] => ""
  | [a] => a
  | a :: rest => a ++ ", " ++ join_args rest

/-- Message built by `operation_error` (the uniform "operation not
supported" diagnostic). -/
def operation_error_msg (ty : String) (argTypes : List String) (op : String)
    (errMsg : String) : String :=
  "Operation Error: " ++ errMsg
    ++ "\n\twith primary object's type: " ++ ty
    ++ "\n\tOperator: " ++ op
    ++ (if argTypes.isEmpty then "" else "\n\tArguments: ")
    ++ join_args argTypes

/-- Fallback arm of the binary dispatch functions:
`operation_error(entity::name_of(arg_1), { entity::name_of(arg_2) }, op)`. -/
def op_error (a b : Value) (op : String) : Value :=
  .error (operation_error_msg (type_name a) [type_name b] op "")

/-- Single step of `tuple_t::push(entity&&)`: the new head is built with
`std::make_pair(elem, tuple_t())`, which copies the entity once (the named
rvalue reference is an lvalue), and is prepended. -/
def tuple_push_move (t : List Value) (e : Value) : List Value :=
  entity_copy e :: t

/-- Step of `tuple_t::push(entity const&)`: `auto tmp = elem;` copies once,
then `push(std::move(tmp))` copies again, so the stored element equals the
argument after two entity copies. -/
def tuple_push (t : List Value) (e : Value) : List Value :=
  tuple_push_move t (entity_copy e)

/-- Implementation of `tuple_t::operator=(tuple_t const&)`: walk the source
head-to-tail and `push` each element onto the destination (every push
prepends, so the source order is reversed in front of the old contents). -/
def tuple_assign (dst src : List Value) : List Value :=
  src.foldl tuple_push dst

/-- Copy construction `tuple_t(tuple_t const&)`: the body is
`*this = other` on a default-constructed (empty) tuple. -/
def tuple_copy (src : List Value) : List Value :=
  tuple_assign [] src

/-- Implementation of `tuple_t::concat`: peel `this` head-to-tail onto a
`std::stack` (each `emplace` copies the entity once), copy-construct the
result from `other with auto result = other`, then pop the stack re-pushing
with `push(std::move(...))` (one more entity copy each). -/
def tuple_concat (a b : List Value) : List Value :=
  ((a.map entity_copy).reverse).foldl tuple_push_move (tuple_copy b)

/-- Materialisation `tuple_t::to_list`: `for_each` appends the elements in
head-to-tail order (`push_back` copies each entity once). -/
def tuple_to_list (t : List Value) : List Value :=
  t.map entity_copy

mutual

/-- Implementation of `operator==(entity const&, entity const&)`.  Arithmetic
pairs compare with numeric promotion; two `func_t` or two `error_t` compare
false; equal alternative types compare structurally; every other combination
throws `std::runtime_error("Type mismatch.")`, modelled as `none`. -/
def entity_eq : Value → Value → Option Bool
  | .int a, .int b => some (decide (a = b))
  | .int a, .real q => some (decide ((a : ℚ) = q))
  | .real p, .int b => some (decide (p = (b : ℚ)))
  | .real p, .real q => some (decide (p = q))
  | .func _, .func _ => some false
  | .error _, .error _ => some false
  | .str s, .str t => some (decide (s = t))
  | .list l1, .list l2 =>
      if l1.length = l2.length then list_eq l1 l2 else some false
  | .tuple l1, .tuple l2 => tuple_eq l1 l2
  | _, _ => none

/-- Elementwise `std::vector<entity>` comparison after the size check
(`std::equal` stops at the first mismatch; an element comparison may throw). -/
def list_eq : List Value → List Value → Option Bool
  | x :: xs, y :: ys =>
      match entity_eq x y with
      | none => none
      | some false => some false
      | some true => list_eq xs ys
  | _, _ => some true

/-- Implementation of `operator==(tuple_t const&, tuple_t const&)`: walk both
spines while non-empty comparing heads with `entity ==`, then require both
exhausted.  The function is declared `noexcept`, so a throwing head
comparison terminates the program (modelled `none`). -/
def tuple_eq : List Value → List Value → Option Bool
  | x :: xs, y :: ys =>
      match entity_eq x y with
      | none => none
      | some false => some false
      | some true => tuple_eq xs ys
  | l1, l2 => some (l1.isEmpty && l2.isEmpty)

end

/-- Result type of `std::partial_ordering`. -/
inductive POrd : Type where
  | lt | eq | gt | unordered
  deriving DecidableEq

/-- Three-way comparison of integers. -/
def int_cmp (a b : Int) : POrd :=
  if a < b then .lt else if a = b then .eq else .gt

/-- Three-way comparison of the `real_t` model. -/
def rat_cmp (p q : ℚ) : POrd :=
  if p < q then .lt else if p = q then .eq else .gt

/-- Lexicographic byte comparison of `str_t`. -/
def str_cmp (s t : String) : POrd :=
  if s = t then .eq else if s < t then .lt else .gt

mutual

/-- Implementation of `operator<=>(entity const&, entity const&)`.  The
list×list arm of the source builds a `list_t` of element comparisons and
returns it where a `std::partial_ordering` is required (it also indexes
`arg_2` with `arg_1`'s indices); that arm is not well-formed C++ and is
modelled as a fatal outcome (`none`).  Two `func_t` or two `error_t`
subobjects compare by address — distinct here, hence `unordered`.  The
generic arm demands identical alternative types (no numeric promotion) and
otherwise throws `std::runtime_error("Type mismatch.")` (`none`). -/
def entity_cmp : Value → Value → Option POrd
  | .list _, .list _ => none
  | .func _, .func _ => some .unordered
  | .error _, .error _ => some .unordered
  | .int a, .int b => some (int_cmp a b)
  | .real p, .real q => some (rat_cmp p q)
  | .str s, .str t => some (str_cmp s t)
  | .tuple l1, .tuple l2 => tuple_cmp l1 l2
  | _, _ => none

/-- Implementation of `operator<=>(tuple_t const&, tuple_t const&)`: compare
heads with `entity <=>` until a non-equivalent result, a shorter tuple being
less.  Declared `noexcept`, so a throwing head comparison terminates
(`none`). -/
def tuple_cmp : List Value → List Value → Option POrd
  | x :: xs, y :: ys =>
      match entity_cmp x y with
      | none => none
      | some .eq => tuple_cmp xs ys
      | some c => some c
  | [], [] => some .eq
  | [], _ => some .lt
  | _, _ => some .gt

end

/-- String repetition used by `operator*` on `int_t × str_t` (the loop
`while (count-- > 0) result += s;`). -/
def str_repeat : Nat → String → String
  | 0, _ => ""
  | n + 1, s => s ++ str_repeat n s

/-- Repetition count: a non-positive `int_t` count leaves the result
empty. -/
def repeat_count (n : Int) : Nat :=
  if n ≤ 0 then 0 else n.toNat

mutual

/-- Implementation of `operator+`: equal-length lists add elementwise
(message "List size mismatch" — no trailing period here, unlike the other
operators), tuples concatenate, arithmetic pairs add with promotion, strings
concatenate, scalars broadcast over lists, anything else is the uniform
operation error. -/
def entity_add : Value → Value → Value
  | .list l1, .list l2 =>
      if l1.length ≠ l2.length then .error "List size mismatch"
      else .list (add_zip l1 l2)
  | .tuple l1, .tuple l2 => .tuple (tuple_concat l1 l2)
  | .int a, .int b => .int (a + b)
  | .int a, .real q => .real ((a : ℚ) + q)
  | .real p, .int b => .real (p + (b : ℚ))
  | .real p, .real q => .real (p + q)
  | .str s, .str t => .str (s ++ t)
  | .int a, .list l => .list (add_scalar_list (.int a) l)
  | .real p, .list l => .list (add_scalar_list (.real p) l)
  | .list l, .int b => .list (add_list_scalar l (.int b))
  | .list l, .real q => .list (add_list_scalar l (.real q))
  | a, b => op_error a b "(+)"
termination_by a b => sizeOf a + sizeOf b

def add_zip : List Value → List Value → List Value
  | x :: xs, y :: ys => entity_add x y :: add_zip xs ys
  | _, _ => []
termination_by l1 l2 => sizeOf l1 + sizeOf l2

def add_scalar_list : Value → List Value → List Value
  | _, [] => []
  | a, y :: ys => entity_add a y :: add_scalar_list a ys
termination_by a l => sizeOf a + sizeOf l

def add_list_scalar : List Value → Value → List Value
  | [], _ => []
  | x :: xs, b => entity_add x b :: add_list_scalar xs b
termination_by l b => sizeOf l + sizeOf b

end

mutual

/-- Implementation of `operator-`: like `+` but with no tuple and no string
arm, and the list-size message carries a trailing period. -/
def entity_sub : Value → Value → Value
  | .list l1, .list l2 =>
      if l1.length ≠ l2.length then .error "List size mismatch."
      else .list (sub_zip l1 l2)
  | .int a, .int b => .int (a - b)
  | .int a, .real q => .real ((a : ℚ) - q)
  | .real p, .int b => .real (p - (b : ℚ))
  | .real p, .real q => .real (p - q)
  | .int a, .list l => .list (sub_scalar_list (.int a) l)
  | .real p, .list l => .list (sub_scalar_list (.real p) l)
  | .list l, .int b => .list (sub_list_scalar l (.int b))
  | .list l, .real q => .list (sub_list_scalar l (.real q))
  | a, b => op_error a b "(-)"
termination_by a b => sizeOf a + sizeOf b

def sub_zip : List Value → List Value → List Value
  | x :: xs, y :: ys => entity_sub x y :: sub_zip xs ys
  | _, _ => []
termination_by l1 l2 => sizeOf l1 + sizeOf l2

def sub_scalar_list : Value → List Value → List Value
  | _, [] => []
  | a, y :: ys => entity_sub a y :: sub_scalar_list a ys
termination_by a l => sizeOf a + sizeOf l

def sub_list_scalar : List Value → Value → List Value
  | [], _ => []
  | x :: xs, b => entity_sub x b :: sub_list_scalar xs b
termination_by l b => sizeOf l + sizeOf b

end

mutual

/-- Implementation of `operator*`: `int_t × str_t` (either order) repeats the
string, lists multiply elementwise, arithmetic pairs multiply with promotion,
scalars broadcast. -/
def entity_mul : Value → Value → Value
  | .int a, .str s => .str (str_repeat (repeat_count a) s)
  | .str s, .int b => .str (str_repeat (repeat_count b) s)
  | .list l1, .list l2 =>
      if l1.length ≠ l2.length then .error "List size mismatch."
      else .list (mul_zip l1 l2)
  | .int a, .int b => .int (a * b)
  | .int a, .real q => .real ((a : ℚ) * q)
  | .real p, .int b => .real (p * (b : ℚ))
  | .real p, .real q => .real (p * q)
  | .int a, .list l => .list (mul_scalar_list (.int a) l)
  | .real p, .list l => .list (mul_scalar_list (.real p) l)
  | .list l, .int b => .list (mul_list_scalar l (.int b))
  | .list l, .real q => .list (mul_list_scalar l (.real q))
  | a, b => op_error a b "(*)"
termination_by a b => sizeOf a + sizeOf b

def mul_zip : List Value → List Value → List Value
  | x :: xs, y :: ys => entity_mul x y :: mul_zip xs ys
  | _, _ => []
termination_by l1 l2 => sizeOf l1 + sizeOf l2

def mul_scalar_list : Value → List Value → List Value
  | _, [] => []
  | a, y :: ys => entity_mul a y :: mul_scalar_list a ys
termination_by a l => sizeOf a + sizeOf l

def mul_list_scalar : List Value → Value → List Value
  | [], _ => []
  | x :: xs, b => entity_mul x b :: mul_list_scalar xs b
termination_by l b => sizeOf l + sizeOf b

end

mutual

/-- Implementation of `operator/`: lists divide elementwise; an arithmetic
right operand equal to zero yields `Error("Division by zero.")` (note the
trailing period in the source string); `int_t / int_t` is C++ integer
division, i.e. truncation toward zero (`Int.tdiv`); any `real_t` operand
promotes to real division. -/
def entity_div : Value → Value → Value
  | .list l1, .list l2 =>
      if l1.length ≠ l2.length then .error "List size mismatch."
      else .list (div_zip l1 l2)
  | .int a, .int b =>
      if b = 0 then .error "Division by zero." else .int (a.tdiv b)
  | .int a, .real q =>
      if q = 0 then .error "Division by zero." else .real ((a : ℚ) / q)
  | .real p, .int b =>
      if b = 0 then .error "Division by zero." else .real (p / (b : ℚ))
  | .real p, .real q =>
      if q = 0 then .error "Division by zero." else .real (p / q)
  | .int a, .list l => .list (div_scalar_list (.int a) l)
  | .real p, .list l => .list (div_scalar_list (.real p) l)
  | .list l, .int b => .list (div_list_scalar l (.int b))
  | .list l, .real q => .list (div_list_scalar l (.real q))
  | a, b => op_error a b "(/)"
termination_by a b => sizeOf a + sizeOf b

def div_zip : List Value → List Value → List Value
  | x :: xs, y :: ys => entity_div x y :: div_zip xs ys
  | _, _ => []
termination_by l1 l2 => sizeOf l1 + sizeOf l2

def div_scalar_list : Value → List Value → List Value
  | _, [] => []
  | a, y :: ys => entity_div a y :: div_scalar_list a ys
termination_by a l => sizeOf a + sizeOf l

def div_list_scalar : List Value → Value → List Value
  | [], _ => []
  | x :: xs, b => entity_div x b :: div_list_scalar xs b
termination_by l b => sizeOf l + sizeOf b

end

mutual

/-- Implementation of `operator%`: only `int_t % int_t` (with the zero check
and message "Division by zero.", truncated remainder `Int.tmod`), `int_t`
broadcast over a list (either side), and list×list elementwise are handled;
everything else — including any `real_t` operand — is the uniform operation
error. -/
def entity_mod : Value → Value → Value
  | .int a, .int b =>
      if b = 0 then .error "Division by zero." else .int (a.tmod b)
  | .int a, .list l => .list (mod_scalar_list (.int a) l)
  | .list l, .int b => .list (mod_list_scalar l (.int b))
  | .list l1, .list l2 =>
      if l1.length ≠ l2.length then .error "List size mismatch."
      else .list (mod_zip l1 l2)
  | a, b => op_error a b "(%)"
termination_by a b => sizeOf a + sizeOf b

def mod_zip : List Value → List Value → List Value
  | x :: xs, y :: ys => entity_mod x y :: mod_zip xs ys
  | _, _ => []
termination_by l1 l2 => sizeOf l1 + sizeOf l2

def mod_scalar_list : Value → List Value → List Value
  | _, [] => []
  | a, y :: ys => entity_mod a y :: mod_scalar_list a ys
termination_by a l => sizeOf a + sizeOf l

def mod_list_scalar : List Value → Value → List Value
  | [], _ => []
  | x :: xs, b => entity_mod x b :: mod_list_scalar xs b
termination_by l b => sizeOf l + sizeOf b

end

/-- Digit accumulator shared by the numeric-literal models. -/
def nat_of_digits (cs : List Char) : Nat :=
  cs.foldl (fun n c => n * 10 + (c.toNat - 48)) 0

/-- Model of `std::from_chars` into a floating value: an optional integer
part, fraction after '.', and decimal exponent after 'e' with an optional
sign.  Input that `from_chars` rejects leaves the C++ variable uninitialised
(undefined); this parser then yields 0.  No claim depends on this
function. -/
def parse_real (s : String) : ℚ :=
  let cs := s.data
  let ip := cs.takeWhile Char.isDigit
  let r1 := cs.dropWhile Char.isDigit
  let fp :=
    if r1.head? = some '.' then (r1.drop 1).takeWhile Char.isDigit else []
  let r2 :=
    if r1.head? = some '.' then (r1.drop 1).dropWhile Char.isDigit else r1
  let ex : Int :=
    if r2.head? = some 'e' then
      let es := r2.drop 1
      let sign : Int := if es.head? = some '-' then -1 else 1
      let ds :=
        if es.head? = some '-' ∨ es.head? = some '+' then es.drop 1 else es
      sign * (nat_of_digits (ds.takeWhile Char.isDigit) : Int)
    else 0
  let mant : ℚ :=
    (nat_of_digits ip : ℚ) + (nat_of_digits fp : ℚ) / ((10 : ℚ) ^ fp.length)
  if 0 ≤ ex then mant * (10 : ℚ) ^ ex.toNat else mant / ((10 : ℚ) ^ (-ex).toNat)

/-- Conversion `entity::operator real_t()`: `int_t` widens, `real_t` is
returned, `str_t` goes through `from_chars`, every other case throws
`std::runtime_error("Invalid operation.")` (`none`). -/
def real_of : Value → Option ℚ
  | .int n => some (n : ℚ)
  | .real q => some q
  | .str s => some (parse_real s)
  | _ => none

/-- Model of `std::pow` on the `ℚ` carrier: exact for integer exponents;
non-integer exponents are outside the model (no claim touches them) and
map to 0. -/
def std_pow (a b : ℚ) : ℚ :=
  if b.den = 1 then
    (if 0 ≤ b.num then a ^ b.num.toNat else (a ^ (-b.num).toNat)⁻¹)
  else 0

mutual

/-- Implementation of `operator^`: the list×list arm converts each element
with `real_t(...)` — a conversion that throws on non-numeric elements, hence
the `Option` — and applies `std::pow`; arithmetic pairs always promote to
real; scalars broadcast. -/
def entity_pow : Value → Value → Option Value
  | .list l1, .list l2 =>
      if l1.length ≠ l2.length then some (.error "List size mismatch.")
      else match pow_zip l1 l2 with
        | some r => some (.list r)
        | none => none
  | .int a, .int b => some (.real (std_pow (a : ℚ) (b : ℚ)))
  | .int a, .real q => some (.real (std_pow (a : ℚ) q))
  | .real p, .int b => some (.real (std_pow p (b : ℚ)))
  | .real p, .real q => some (.real (std_pow p q))
  | .int a, .list l =>
      (match pow_scalar_list (.int a) l with
        | some r => some (.list r)
        | none => none)
  | .real p, .list l =>
      (match pow_scalar_list (.real p) l with
        | some r => some (.list r)
        | none => none)
  | .list l, .int b =>
      (match pow_list_scalar l (.int b) with
        | some r => some (.list r)
        | none => none)
  | .list l, .real q =>
      (match pow_list_scalar l (.real q) with
        | some r => some (.list r)
        | none => none)
  | a, b => some (op_error a b "(^)")
termination_by a b => sizeOf a + sizeOf b

def pow_zip : List Value → List Value → Option (List Value)
  | x :: xs, y :: ys =>
      (match real_of x, real_of y with
        | some p, some q =>
          (match pow_zip xs ys with
            | some rest => some (.real (std_pow p q) :: rest)
            | none => none)
        | _, _ => none)
  | _, _ => some []
termination_by l1 l2 => sizeOf l1 + sizeOf l2

def pow_scalar_list : Value → List Value → Option (List Value)
  | _, [] => some []
  | a, y :: ys =>
      (match entity_pow a y with
        | some v =>
          (match pow_scalar_list a ys with
            | some rest => some (v :: rest)
            | none => none)
        | none => none)
termination_by a l => sizeOf a + sizeOf l

def pow_list_scalar : List Value → Value → Option (List Value)
  | [], _ => some []
  | x :: xs, b =>
      (match entity_pow x b with
        | some v =>
          (match pow_list_scalar xs b with
            | some rest => some (v :: rest)
            | none => none)
        | none => none)
termination_by l b => sizeOf l + sizeOf b

end

mutual

/-- Implementation of `operator&`: bitwise and of two `int_t` (two's
complement `Int.land`), `int_t` broadcast over a list, list×list
elementwise; anything else is the uniform operation error. -/
def entity_band : Value → Value → Value
  | .int a, .int b => .int (Int.land a b)
  | .int a, .list l => .list (band_scalar_list (.int a) l)
  | .list l, .int b => .list (band_list_scalar l (.int b))
  | .list l1, .list l2 =>
      if l1.length ≠ l2.length then .error "List size mismatch."
      else .list (band_zip l1 l2)
  | a, b => op_error a b "(&)"
termination_by a b => sizeOf a + sizeOf b

def band_zip : List Value → List Value → List Value
  | x :: xs, y :: ys => entity_band x y :: band_zip xs ys
  | _, _ => []
termination_by l1 l2 => sizeOf l1 + sizeOf l2

def band_scalar_list : Value → List Value → List Value
  | _, [] => []
  | a, y :: ys => entity_band a y :: band_scalar_list a ys
termination_by a l => sizeOf a + sizeOf l

def band_list_scalar : List Value → Value → List Value
  | [], _ => []
  | x :: xs, b => entity_band x b :: band_list_scalar xs b
termination_by l b => sizeOf l + sizeOf b

end

mutual

/-- Implementation of `operator|`: bitwise or, same shape as `operator&`. -/
def entity_bor : Value → Value → Value
  | .int a, .int b => .int (Int.lor a b)
  | .int a, .list l => .list (bor_scalar_list (.int a) l)
  | .list l, .int b => .list (bor_list_scalar l (.int b))
  | .list l1, .list l2 =>
      if l1.length ≠ l2.length then .error "List size mismatch."
      else .list (bor_zip l1 l2)
  | a, b => op_error a b "(|)"
termination_by a b => sizeOf a + sizeOf b

def bor_zip : List Value → List Value → List Value
  | x :: xs, y :: ys => entity_bor x y :: bor_zip xs ys
  | _, _ => []
termination_by l1 l2 => sizeOf l1 + sizeOf l2

def bor_scalar_list : Value → List Value → List Value
  | _, [] => []
  | a, y :: ys => entity_bor a y :: bor_scalar_list a ys
termination_by a l => sizeOf a + sizeOf l

def bor_list_scalar : List Value → Value → List Value
  | [], _ => []
  | x :: xs, b => entity_bor x b :: bor_list_scalar xs b
termination_by l b => sizeOf l + sizeOf b

end

/-- C++ `a << b` on `long long` for the defined range `0 ≤ b < 64`; a
negative shift count is undefined behaviour in C++ (here it clamps to 0)
and 64-bit overflow is not modelled. -/
def shl_int (a b : Int) : Int :=
  a * 2 ^ b.toNat

/-- C++ `a >> b` on `long long`: arithmetic right shift (GCC), i.e. floor
division by the power of two; the same caveats as `shl_int` apply. -/
def shr_int (a b : Int) : Int :=
  Int.fdiv a (2 ^ b.toNat)

mutual

/-- Implementation of `operator<<`: same dispatch shape as `operator&`. -/
def entity_shl : Value → Value → Value
  | .int a, .int b => .int (shl_int a b)
  | .int a, .list l => .list (shl_scalar_list (.int a) l)
  | .list l, .int b => .list (shl_list_scalar l (.int b))
  | .list l1, .list l2 =>
      if l1.length ≠ l2.length then .error "List size mismatch."
      else .list (shl_zip l1 l2)
  | a, b => op_error a b "(<<)"
termination_by a b => sizeOf a + sizeOf b

def shl_zip : List Value → List Value → List Value
  | x :: xs, y :: ys => entity_shl x y :: shl_zip xs ys
  | _, _ => []
termination_by l1 l2 => sizeOf l1 + sizeOf l2

def shl_scalar_list : Value → List Value → List Value
  | _, [] => []
  | a, y :: ys => entity_shl a y :: shl_scalar_list a ys
termination_by a l => sizeOf a + sizeOf l

def shl_list_scalar : List Value → Value → List Value
  | [], _ => []
  | x :: xs, b => entity_shl x b :: shl_list_scalar xs b
termination_by l b => sizeOf l + sizeOf b

end

mutual

/-- Implementation of `operator>>`: same dispatch shape as `operator<<`. -/
def entity_shr : Value → Value → Value
  | .int a, .int b => .int (shr_int a b)
  | .int a, .list l => .list (shr_scalar_list (.int a) l)
  | .list l, .int b => .list (shr_list_scalar l (.int b))
  | .list l1, .list l2 =>
      if l1.length ≠ l2.length then .error "List size mismatch."
      else .list (shr_zip l1 l2)
  | a, b => op_error a b "(>>)"
termination_by a b => sizeOf a + sizeOf b

def shr_zip : List Value → List Value → List Value
  | x :: xs, y :: ys => entity_shr x y :: shr_zip xs ys
  | _, _ => []
termination_by l1 l2 => sizeOf l1 + sizeOf l2

def shr_scalar_list : Value → List Value → List Value
  | _, [] => []
  | a, y :: ys => entity_shr a y :: shr_scalar_list a ys
termination_by a l => sizeOf a + sizeOf l

def shr_list_scalar : List Value → Value → List Value
  | [], _ => []
  | x :: xs, b => entity_shr x b :: shr_list_scalar xs b
termination_by l b => sizeOf l + sizeOf b

end

/-- Bounds-checked model of `result[i] = v` on a `std::vector`: writing
outside `[0, length)` is undefined behaviour (`none`). -/
def set_at (l : List Value) (i : Nat) (v : Value) : Option (List Value) :=
  if i < l.length then some (l.set i v) else none

mutual

/-- Implementation of `operator&&`.  The list×list arm of the source
declares `auto result = list_t();` — an EMPTY vector — and then executes
`result[i] = arg_1[i] && arg_2[i]` for every index of the (equal-length)
operands: each such write is out of bounds (`none`) whenever the lists are
non-empty.  Arithmetic pairs apply the built-in `&&` (a `bool` wrapped back
into an `entity`, giving `Int` 0/1); scalars broadcast with
`emplace_back`. -/
def entity_land : Value → Value → Option Value
  | .list l1, .list l2 =>
      if l1.length ≠ l2.length then some (.error "List size mismatch.")
      else
        (match land_set l1 l2 0 [] with
          | some r => some (.list r)
          | none => none)
  | .int a, .int b =>
      some (.int (if a ≠ 0 ∧ b ≠ 0 then 1 else 0))
  | .int a, .real q =>
      some (.int (if a ≠ 0 ∧ q ≠ 0 then 1 else 0))
  | .real p, .int b =>
      some (.int (if p ≠ 0 ∧ b ≠ 0 then 1 else 0))
  | .real p, .real q =>
      some (.int (if p ≠ 0 ∧ q ≠ 0 then 1 else 0))
  | .int a, .list l =>
      (match land_scalar_list (.int a) l with
        | some r => some (.list r)
        | none => none)
  | .real p, .list l =>
      (match land_scalar_list (.real p) l with
        | some r => some (.list r)
        | none => none)
  | .list l, .int b =>
      (match land_list_scalar l (.int b) with
        | some r => some (.list r)
        | none => none)
  | .list l, .real q =>
      (match land_list_scalar l (.real q) with
        | some r => some (.list r)
        | none => none)
  | a, b => some (op_error a b "(&&)")
termination_by a b => sizeOf a + sizeOf b

/-- The indexed assignment loop of the `&&` list×list arm, starting from the
empty `result` vector: `result[i] = arg_1[i] && arg_2[i]`. -/
def land_set : List Value → List Value → Nat → List Value → Option (List Value)
  | [], [], _, acc => some acc
  | x :: xs, y :: ys, i, acc =>
      (match entity_land x y with
        | none => none
        | some v =>
          (match set_at acc i v with
            | none => none
            | some acc2 => land_set xs ys (i + 1) acc2))
  | _, _, _, _ => none
termination_by l1 l2 _ _ => sizeOf l1 + sizeOf l2

def land_scalar_list : Value → List Value → Option (List Value)
  | _, [] => some []
  | a, y :: ys =>
      (match entity_land a y with
        | some v =>
          (match land_scalar_list a ys with
            | some rest => some (v :: rest)
            | none => none)
        | none => none)
termination_by a l => sizeOf a + sizeOf l

def land_list_scalar : List Value → Value → Option (List Value)
  | [], _ => some []
  | x :: xs, b =>
      (match entity_land x b with
        | some v =>
          (match land_list_scalar xs b with
            | some rest => some (v :: rest)
            | none => none)
        | none => none)
termination_by l b => sizeOf l + sizeOf b

end

/-- Implementation of `operator_abstract`: `std::get<str_t>` on each operand
(throwing `std::bad_variant_access` unless both hold strings, modelled
`none`), then a lambda that ignores its captured name and body and returns
`entity(0)` — a constant function. -/
def operator_abstract : Value → Value → Option Value
  | .str _, .str _ => some (.func (.int 0))
  | _, _ => none

/-- Implementation of `operator_apply`: a `func_t` left operand is applied
to the right operand (every modelled `func_t` is a constant function), any
other left operand is the uniform operation error for `($)`. -/
def operator_apply : Value → Value → Value
  | .func r, _ => r
  | a, b => op_error a b "($)"

/-- Implementation of `operator_concat`: strings concatenate; for lists the
source builds `auto result = list_t(arg_2)` (copying `arg_2`'s elements) and
appends copies of `arg_1`'s elements, so the RIGHT operand's elements come
first; tuples use `tuple_t::concat`. -/
def operator_concat : Value → Value → Value
  | .str s, .str t => .str (s ++ t)
  | .list l1, .list l2 =>
      .list (entity_copy_list l2 ++ entity_copy_list l1)
  | .tuple l1, .tuple l2 => .tuple (tuple_concat l1 l2)
  | a, b => op_error a b "(++)"

/-- Implementation of `operator_cons`: for a `list_t` right operand the
source copies the list (`auto result = list_t(arg_2)`) and then
`result.emplace_back(arg_1)` — the left operand is APPENDED AT THE END, not
prepended; every other right operand is the uniform operation error for
`(:)`. -/
def operator_cons : Value → Value → Value
  | a, .list l => .list (entity_copy_list l ++ [entity_copy a])
  | a, b => op_error a b "(:)"

/-- Character set `k_operators = "@$%^&*-+=|:<,>.?/"`. -/
def k_operators : List Char :=
  ['@', '$', '%', '^', '&', '*', '-', '+', '=', '|', ':', '<', ',', '>', '.', '?', '/']

/-- Character set `k_alnum` (letters, underscore, digits). -/
def is_alnum_ch (c : Char) : Bool :=
  c.isAlpha || c.isDigit || c == '_'

/-- Implementation of `is_operator`: every character of the token lies in
`k_operators` (`find_first_not_of(k_operators) == end()`; a failed search is
read as the end iterator, see the header note on the `ysh::string`
wrappers). -/
def is_operator (t : String) : Bool :=
  t.data.all (fun c => k_operators.contains c)

/-- Implementation of `is_identifier`: a leading digit disqualifies,
otherwise every character must lie in `k_alnum`.  `token[0]` on an empty
token is out of range in C++; the splitter below never produces an empty
token. -/
def is_identifier (t : String) : Bool :=
  match t.data with
  | [] => true
  | c :: _ => if c.isDigit then false else t.data.all is_alnum_ch

/-- Implementation of `is_integer`: every character is a decimal digit. -/
def is_integer (t : String) : Bool :=
  t.data.all Char.isDigit

/-- Index of the last character that is not a decimal digit. -/
def find_last_not_digit (cs : List Char) : Option Nat :=
  match cs.reverse.findIdx? (fun c => !c.isDigit) with
  | none => none
  | some i => some (cs.length - 1 - i)

/-- Implementation of `is_floating_point`: the first and last non-digit
positions must coincide on '.' or 'e', or be a '.' before an 'e' with only
digits in between.  When the token is all digits both searches fail and the
source dereferences a past-the-end iterator (undefined); that case is
unreachable in the evaluator because `is_integer` is tested first, and is
modelled as `false`. -/
def is_floating_point (t : String) : Bool :=
  let cs := t.data
  match cs.findIdx? (fun c => !c.isDigit), find_last_not_digit cs with
  | some i, some j =>
      if i = j then (cs.getD i ' ' == '.' || cs.getD i ' ' == 'e')
      else
        (cs.getD i ' ' == '.' && cs.getD j ' ' == 'e' &&
          (((cs.drop (i + 1)).findIdx? (fun c => !c.isDigit)).map
              (fun k => k + (i + 1)) == some j))
  | _, _ => false

/-- Membership in `g_left_associative`. -/
def left_associative (t : String) : Bool :=
  ["^", "*", "/", "%", "+", "-", "<", ">", "=", "!=", "<=", ">=",
   "&", "|", ",", ";"].contains t

/-- Membership in `g_right_associative`. -/
def right_associative (t : String) : Bool :=
  ["$", ":", "<-", "->"].contains t

/-- The `g_precedence` table; `g_precedence[token]` value-initialises a 0
entry for a key that is absent. -/
def precedence (t : String) : Int :=
  if t = "$" then 100
  else if t = ":" then 90
  else if t = "<-" then 85
  else if t = "^" then 80
  else if t = "*" ∨ t = "/" ∨ t = "%" then 70
  else if t = "+" ∨ t = "-" then 60
  else if t = "<" ∨ t = ">" ∨ t = "=" ∨ t = "!=" ∨ t = "<=" ∨ t = ">=" then 50
  else if t = "&" ∨ t = "|" then 40
  else if t = "<<" ∨ t = ">>" then 30
  else if t = "," then 20
  else if t = "->" then 10
  else 0

/-- The inner `while` of `shunting_yard`'s operator branch: pop stack
entries to the output while the top is an operator whose precedence beats
the incoming token (ties included for a left-associative token), stopping at
the first entry that does not.  Returns (popped entries in pop order,
remaining stack). -/
def pop_greater (t : String) : List String → List String × List String
  | [] => ([], [])
  | top :: stk =>
      if is_operator top = true ∧
          ((left_associative t = true ∧ precedence t ≤ precedence top) ∨
           (right_associative t = true ∧ precedence t < precedence top)) then
        let rest := pop_greater t stk
        (top :: rest.1, rest.2)
      else ([], top :: stk)

/-- One pass of the `shunting_yard` loop, fuel-indexed so that the
definition is structurally recursive (each step consumes at least one input
token, so `tokens.length` fuel always suffices; the fuel-0 arm is then
unreachable).  The branches mirror the source exactly:

* a token that `is_operator` and appears in an associativity table pops by
  precedence and is pushed;
* "(" is pushed; ")" drains to the matching "(" and discards it (when no
  "(" is on the stack the source pops an empty `std::stack`, undefined
  behaviour; no claim exercises that case);
* any other token runs the juxtaposition loop
  `while (i + 1 < size && is_operator(tokens[i + 1])) result.push_back(tokens[++i]);`
  — it copies the DIRECTLY FOLLOWING OPERATOR tokens straight to the
  output, then emits the token itself.

At the end the remaining stack is drained to the output. -/
def shunting_yard_go : Nat → List String → List String → List String → List String
  | 0, _, stk, acc => acc ++ stk
  | _ + 1, [], stk, acc => acc ++ stk
  | fuel + 1, t :: rest, stk, acc =>
      if is_operator t = true ∧
          (left_associative t = true ∨ right_associative t = true) then
        let pr := pop_greater t stk
        shunting_yard_go fuel rest (t :: pr.2) (acc ++ pr.1)
      else if t = "(" then
        shunting_yard_go fuel rest ("(" :: stk) acc
      else if t = ")" then
        shunting_yard_go fuel rest ((stk.dropWhile (fun s => s != "(")).drop 1)
          (acc ++ stk.takeWhile (fun s => s != "("))
      else
        shunting_yard_go fuel (rest.dropWhile is_operator) stk
          (acc ++ rest.takeWhile is_operator ++ [t])

/-- Entry point `shunting_yard(tokens)`. -/
def shunting_yard (tokens : List String) : List String :=
  shunting_yard_go tokens.length tokens [] []

/-- C `ispunct` over ASCII: printable, not alphanumeric, not space. -/
def ispunct (c : Char) : Bool :=
  (33 ≤ c.toNat && c.toNat ≤ 47) || (58 ≤ c.toNat && c.toNat ≤ 64) ||
  (91 ≤ c.toNat && c.toNat ≤ 96) || (123 ≤ c.toNat && c.toNat ≤ 126)

/-- The spacing pass at the top of `evaluate`: every punctuation character
is surrounded by single spaces (so a multi-character operator such as `<-`
is torn into two one-character tokens). -/
def space_punct : List Char → List Char
  | [] => []
  | c :: cs =>
      if ispunct c then ' ' :: c :: ' ' :: space_punct cs
      else c :: space_punct cs

/-- Splitting on ' ' with empty pieces filtered out
(`stdv::split(' ') | stdv::filter(not empty)`); `acc` holds the current
token reversed. -/
def split_spaces_aux : List Char → List Char → List String
  | [], acc => if acc.isEmpty then [] else [String.mk acc.reverse]
  | c :: cs, acc =>
      if c == ' ' then
        (if acc.isEmpty then split_spaces_aux cs []
         else String.mk acc.reverse :: split_spaces_aux cs [])
      else split_spaces_aux cs (c :: acc)

/-- The token list `evaluate` hands to `shunting_yard`. -/
def evaluate_tokens (expr : String) : List String :=
  split_spaces_aux (space_punct expr.data) []

/-- Enumeration `builtin_operator_t`.  The enum's own comments read
`YSH_CONCAT, // ++`, `YSH_CONS, // :` and `YSH_ZIP, // ,`. -/
inductive BuiltinOp : Type where
  | YSH_NON_BUILTIN
  | YSH_ABSTR | YSH_ADD | YSH_AND | YSH_APP | YSH_ASSIGN
  | YSH_CONCAT | YSH_CONS | YSH_DIV | YSH_EQ | YSH_GE
  | YSH_GT | YSH_LE | YSH_LT | YSH_MOD | YSH_MUL
  | YSH_NE | YSH_OR | YSH_POW | YSH_SEQ | YSH_SHL
  | YSH_SHR | YSH_SUB | YSH_ZIP
  deriving DecidableEq

/-- The `fnmap` lookup inside `function(input_t)`; `fnmap.at` throws
`std::out_of_range` for an absent key (`none`).  Note in the source that the
entry for ":" is `YSH_CONCAT` and the entry for "," is `YSH_CONS`,
contradicting the enum's own comments, and that there is no "->" entry. -/
def function (name : String) : Option BuiltinOp :=
  List.lookup name
    [("+", .YSH_ADD), ("&", .YSH_AND), ("$", .YSH_APP), ("<-", .YSH_ASSIGN),
     (":", .YSH_CONCAT), (",", .YSH_CONS), ("/", .YSH_DIV), ("=", .YSH_EQ),
     (">=", .YSH_GE), (">", .YSH_GT), ("<=", .YSH_LE), ("<", .YSH_LT),
     ("%", .YSH_MOD), ("*", .YSH_MUL), ("!=", .YSH_NE), ("|", .YSH_OR),
     ("^", .YSH_POW), (";", .YSH_SEQ), ("<<", .YSH_SHL), (">>", .YSH_SHR),
     ("-", .YSH_SUB)]

/-- The fatal (non-Value) failure channel of the evaluator. -/
inductive Fatal : Type where
  | stack_underflow
  | missing_return
  | unknown_operator
  | type_mismatch
  | null_entity
  | switch_fallthrough
  deriving DecidableEq

/-- Wrapping of an operator result in an `entity` with the matching tag. -/
def mk_entity (v : Value) : Entity :=
  ⟨v.tag, v⟩

/-- The operator application closure `app` inside `evaluate`: `function`
maps the token to the builtin enum and the switch dispatches.  Cases that
throw in the source map to `.error`:

* an unknown token (`fnmap.at` throws `std::out_of_range`);
* `==`/`<=>` on mismatched alternative types, and `operator_abstract` /
  the `^` list arm on non-convertible operands;
* `YSH_CONS` (produced by the token ","), `YSH_ZIP` and `YSH_NON_BUILTIN`
  have NO case in the switch, so control falls off the non-void lambda
  (undefined behaviour, modelled `.error .switch_fallthrough`).

`YSH_ASSIGN` executes `const_cast<entity_t&>(arg_1) = arg_2`, which per
`entity::operator=` copies only the tag; the function then returns a copy
of that local.  `YSH_SEQ` returns a copy of the right operand.  The
comparison operators rebuild a boolean `entity` (an `Int` 0/1) from the
partial ordering, `unordered` counting as false. -/
def app (tok : String) (a b : Entity) : Except Fatal Entity :=
  match function tok with
  | none => .error .unknown_operator
  | some op =>
    match op with
    | .YSH_ABSTR =>
        (match operator_abstract a.val b.val with
          | some v => .ok (mk_entity v)
          | none => .error .type_mismatch)
    | .YSH_ADD => .ok (mk_entity (entity_add a.val b.val))
    | .YSH_AND => .ok (mk_entity (entity_band a.val b.val))
    | .YSH_APP => .ok (mk_entity (operator_apply a.val b.val))
    | .YSH_ASSIGN => .ok ⟨b.ty, entity_copy a.val⟩
    | .YSH_CONCAT => .ok (mk_entity (operator_concat a.val b.val))
    | .YSH_CONS => .error .switch_fallthrough
    | .YSH_DIV => .ok (mk_entity (entity_div a.val b.val))
    | .YSH_EQ =>
        (match entity_eq a.val b.val with
          | some bl => .ok (mk_entity (.int (if bl then 1 else 0)))
          | none => .error .type_mismatch)
    | .YSH_GE =>
        (match entity_cmp a.val b.val with
          | some c =>
              .ok (mk_entity (.int (if c = .gt ∨ c = .eq then 1 else 0)))
          | none => .error .type_mismatch)
    | .YSH_GT =>
        (match entity_cmp a.val b.val with
          | some c => .ok (mk_entity (.int (if c = .gt then 1 else 0)))
          | none => .error .type_mismatch)
    | .YSH_LE =>
        (match entity_cmp a.val b.val with
          | some c =>
              .ok (mk_entity (.int (if c = .lt ∨ c = .eq then 1 else 0)))
          | none => .error .type_mismatch)
    | .YSH_LT =>
        (match entity_cmp a.val b.val with
          | some c => .ok (mk_entity (.int (if c = .lt then 1 else 0)))
          | none => .error .type_mismatch)
    | .YSH_MOD => .ok (mk_entity (entity_mod a.val b.val))
    | .YSH_MUL => .ok (mk_entity (entity_mul a.val b.val))
    | .YSH_NE =>
        (match entity_eq a.val b.val with
          | some bl => .ok (mk_entity (.int (if bl then 0 else 1)))
          | none => .error .type_mismatch)
    | .YSH_OR => .ok (mk_entity (entity_bor a.val b.val))
    | .YSH_POW =>
        (match entity_pow a.val b.val with
          | some v => .ok (mk_entity v)
          | none => .error .type_mismatch)
    | .YSH_SEQ => .ok ⟨b.ty, entity_copy b.val⟩
    | .YSH_SHL => .ok (mk_entity (entity_shl a.val b.val))
    | .YSH_SHR => .ok (mk_entity (entity_shr a.val b.val))
    | .YSH_SUB => .ok (mk_entity (entity_sub a.val b.val))
    | .YSH_NON_BUILTIN => .error .switch_fallthrough
    | .YSH_ZIP => .error .switch_fallthrough

/-- The variable store (`env_t` / the global `g_variables`). -/
def Store : Type :=
  List (String × Entity)

/-- Parse of an all-digit token with `std::from_chars` into `int value`
(32-bit overflow is not modelled). -/
def str_to_int (t : String) : Int :=
  (nat_of_digits t.data : Int)

/-- The evaluator loop over the postfix token sequence, with the operand
stack and the variable store.  Mirrors the source:

* an identifier pushes a COPY of `g_variables[token]` (note: the `env`
  parameter of `evaluate` is never consulted; `std::stack<entity_t>` holds
  values, not references).  For an unbound identifier `operator[]`
  default-inserts an `entity` whose `m_value` is null, and the push-copy
  then dereferences that null pointer (`.error .null_entity`);
* an integer/floating literal pushes a constructed `Int`/`Real`;
* an operator token copies and pops the two top operands (right first) and
  pushes the dispatched result; `operands.top()` on an empty or singleton
  stack is undefined behaviour (`.error .stack_underflow`);
* any other token is silently skipped (it matches none of the four
  classifying predicates). -/
def eval_loop : List String → List Entity → Store → Except Fatal (List Entity × Store)
  | [], stk, store => .ok (stk, store)
  | t :: rest, stk, store =>
      if is_identifier t then
        match List.lookup t store with
        | some e => eval_loop rest (⟨e.ty, entity_copy e.val⟩ :: stk) store
        | none => .error .null_entity
      else if is_integer t then
        eval_loop rest (⟨.INT, .int (str_to_int t)⟩ :: stk) store
      else if is_floating_point t then
        eval_loop rest (⟨.REAL, .real (parse_real t)⟩ :: stk) store
      else if is_operator t then
        match stk with
        | rhs :: lhs :: stk2 =>
            (match app t ⟨lhs.ty, entity_copy lhs.val⟩ ⟨rhs.ty, entity_copy rhs.val⟩ with
              | .ok r => eval_loop rest (r :: stk2) store
              | .error e => .error e)
        | _ => .error .stack_underflow
      else eval_loop rest stk store

/-- Implementation of `evaluate(expr, env)`: space the punctuation, split,
reorder with `shunting_yard`, then run the operand-stack loop.  The source
function has NO return statement: when the loop completes, control falls off
the end of a non-void function (undefined behaviour), modelled as
`.error .missing_return`.  The pair threads the variable store so that its
final state is observable. -/
def evaluate (expr : String) (store : Store) : Except Fatal (Entity × Store) :=
  match eval_loop (shunting_yard (evaluate_tokens expr)) [] store with
  | .ok _ => .error .missing_return
  | .error e => .error e

/-- The variable store after running the evaluator loop (unchanged when the
loop aborts fatally, as the aborted C++ evaluation never completed a store
write either). -/
def store_after (toks : List String) (stk : List Entity) (store : Store) : Store :=
  match eval_loop toks stk store with
  | .ok (_, s) => s
  | .error _ => store

/-- State of the `parse` coroutine's scan loop: the start of the current
token, the cursor `it`, and the open-delimiter stack. -/
structure ScanState : Type where
  tbegin : Nat
  it : Nat
  stk : List Char
  deriving DecidableEq

/-- The `compound` map sending each opening delimiter to its closer
(`operator[]` yields a value-initialised `'\0'` for any other key).  The
single-quote and backtick characters are written via their code points 39
and 96. -/
def compound_close (c : Char) : Char :=
  if c == '(' then ')'
  else if c == '{' then '}'
  else if c == '[' then ']'
  else if c == Char.ofNat 39 then Char.ofNat 39
  else if c == '"' then '"'
  else if c == Char.ofNat 96 then Char.ofNat 96
  else Char.ofNat 0

/-- The opening delimiters pushed by the scan loop: `( [ {`, single quote
(code 39), double quote, backtick (code 96). -/
def is_open_delim (c : Char) : Bool :=
  c == '(' || c == '[' || c == '{' || c == Char.ofNat 39 || c == '"' ||
  c == Char.ofNat 96

/-- One iteration of the `while (it != end)` body of `parse`:

* ' ' yields the token `[begin, it)` and advances past the space;
* an opening delimiter is pushed — and `break` leaves `it` unchanged;
* a closing delimiter matching the stack top pops it, and when that empties
  the stack yields `[begin, it + 1)` and advances (otherwise `break` again
  leaves `it` unchanged); an unbalanced closer throws in the source (state
  kept as-is here);
* a backslash advances one position onto the escaped character (the empty
  inner switch falls through to `default`);
* EVERY OTHER CHARACTER hits `default: break;`, which changes nothing at
  all — the loop spins on the same character forever.

The yielded token texts are irrelevant to the termination question and are
not recorded. -/
def scan_next (line : List Char) (s : ScanState) : ScanState :=
  if s.it < line.length then
    let ch := line.getD s.it (Char.ofNat 0)
    if ch == ' ' then { tbegin := s.it + 1, it := s.it + 1, stk := s.stk }
    else if is_open_delim ch then { s with stk := ch :: s.stk }
    else if ch == ')' || ch == ']' || ch == '}' then
      match s.stk with
      | [] => s
      | top :: rest =>
          if compound_close top == ch then
            (if rest.isEmpty then { tbegin := s.it + 1, it := s.it + 1, stk := [] }
             else { s with stk := rest })
          else s
    else if ch == '\\' then
      (if s.it + 1 = line.length then s else { s with it := s.it + 1 })
    else s
  else s

/-- Initial state of the scan: cursor and token start at position 0, no
open delimiters. -/
def scan_init : ScanState :=
  ⟨0, 0, []⟩

end Ysh


namespace Ysh

theorem entity_copy_list_eq_map : ∀ l : List Value, entity_copy_list l = l.map entity_copy
  | [] => rfl
  | v :: vs => by
      simp [entity_copy_list, entity_copy_list_eq_map vs]

mutual

theorem entity_copy_copy : ∀ v : Value, entity_copy (entity_copy v) = v
  | .int _ => rfl
  | .real _ => rfl
  | .str _ => rfl
  | .func _ => rfl
  | .error _ => rfl
  | .list l => by
      simp only [entity_copy]
      rw [entity_copy_list_copy l]
  | .tuple l => by
      simp only [entity_copy]
      rw [entity_copy_list_eq_map ((entity_copy_list l).reverse), List.map_reverse,
        List.reverse_reverse, ← entity_copy_list_eq_map, entity_copy_list_copy l]

theorem entity_copy_list_copy : ∀ l : List Value, entity_copy_list (entity_copy_list l) = l
  | [] => rfl
  | v :: vs => by
      simp [entity_copy_list, entity_copy_copy v, entity_copy_list_copy vs]

end

theorem map_entity_copy_copy (l : List Value) : (l.map entity_copy).map entity_copy = l := by
  rw [← entity_copy_list_eq_map l, ← entity_copy_list_eq_map, entity_copy_list_copy]

theorem tuple_push_cons (t : List Value) (e : Value) : tuple_push t e = e :: t := by
  simp [tuple_push, tuple_push_move, entity_copy_copy]

theorem tuple_assign_eq : ∀ src dst : List Value, tuple_assign dst src = src.reverse ++ dst := by
  intro src
  induction src with
  | nil => intro dst; simp [tuple_assign]
  | cons h tl ih =>
      intro dst
      have step : tuple_assign dst (h :: tl) = tuple_assign (h :: dst) tl := by
        simp [tuple_assign, tuple_push_cons]
      rw [step, ih]
      simp

theorem tuple_copy_eq (src : List Value) : tuple_copy src = src.reverse := by
  simp [tuple_copy, tuple_assign_eq]

theorem foldl_push_move : ∀ l r : List Value,
    l.foldl tuple_push_move r = l.reverse.map entity_copy ++ r := by
  intro l
  induction l with
  | nil => intro r; simp
  | cons h tl ih =>
      intro r
      simp only [List.foldl_cons, tuple_push_move, ih, List.reverse_cons, List.map_append]
      simp

theorem tuple_concat_eq (a b : List Value) : tuple_concat a b = a ++ b.reverse := by
  simp only [tuple_concat, tuple_copy_eq, foldl_push_move, List.reverse_reverse]
  rw [map_entity_copy_copy]

theorem pop_greater_split (t : String) : ∀ stk : List String,
    (pop_greater t stk).1 ++ (pop_greater t stk).2 = stk
  | [] => rfl
  | top :: stk => by
      simp only [pop_greater]
      split
      · simp [pop_greater_split t stk]
      · rfl

theorem perm_shuffle_pop (acc p1 p2 rest : List String) (t : String) :
    ((acc ++ p1) ++ (t :: p2) ++ rest).Perm (acc ++ (p1 ++ p2) ++ (t :: rest)) := by
  apply Multiset.coe_eq_coe.mp
  simp only [← Multiset.coe_add, ← Multiset.cons_coe]
  simp only [Multiset.cons_add, Multiset.add_cons]
  congr 1
  abel

theorem perm_shuffle_juxta (acc run stk dropw : List String) (t : String) :
    ((acc ++ run ++ [t]) ++ stk ++ dropw).Perm (acc ++ stk ++ (t :: (run ++ dropw))) := by
  apply Multiset.coe_eq_coe.mp
  simp only [← Multiset.coe_add, ← Multiset.cons_coe]
  simp only [Multiset.cons_add, Multiset.add_cons]
  congr 1
  abel

theorem shunting_yard_go_perm : ∀ (fuel : Nat) (ts stk acc : List String),
    ts.length ≤ fuel → "(" ∉ ts → ")" ∉ ts →
    (shunting_yard_go fuel ts stk acc).Perm (acc ++ stk ++ ts) := by
  intro fuel
  induction fuel with
  | zero =>
      intro ts stk acc hlen _ _
      have hts : ts = [] := List.eq_nil_of_length_eq_zero (Nat.le_zero.mp hlen)
      subst hts
      simp [shunting_yard_go]
  | succ fuel ih =>
      intro ts stk acc hlen hopen hclose
      cases ts with
      | nil => simp [shunting_yard_go]
      | cons t rest =>
          have hopen2 : "(" ∉ rest := fun h => hopen (List.mem_cons_of_mem _ h)
          have hclose2 : ")" ∉ rest := fun h => hclose (List.mem_cons_of_mem _ h)
          have hto : t ≠ "(" := fun h => hopen (h ▸ List.mem_cons_self _ _)
          have htc : t ≠ ")" := fun h => hclose (h ▸ List.mem_cons_self _ _)
          have hlen2 : rest.length ≤ fuel := by
            simp only [List.length_cons] at hlen
            omega
          simp only [shunting_yard_go]
          by_cases h1 : is_operator t = true ∧
              (left_associative t = true ∨ right_associative t = true)
          · rw [if_pos h1]
            refine (ih rest (t :: (pop_greater t stk).2)
              (acc ++ (pop_greater t stk).1) hlen2 hopen2 hclose2).trans ?_
            have hperm := perm_shuffle_pop acc (pop_greater t stk).1
              (pop_greater t stk).2 rest t
            rw [pop_greater_split t stk] at hperm
            exact hperm
          · rw [if_neg h1, if_neg hto, if_neg htc]
            have hsub : (rest.dropWhile is_operator).Sublist rest :=
              List.dropWhile_sublist _
            have hlen3 : (rest.dropWhile is_operator).length ≤ fuel :=
              le_trans hsub.length_le hlen2
            have ho3 : "(" ∉ rest.dropWhile is_operator :=
              fun h => hopen2 (hsub.subset h)
            have hc3 : ")" ∉ rest.dropWhile is_operator :=
              fun h => hclose2 (hsub.subset h)
            refine (ih (rest.dropWhile is_operator) stk
              (acc ++ rest.takeWhile is_operator ++ [t]) hlen3 ho3 hc3).trans ?_
            have hperm := perm_shuffle_juxta acc (rest.takeWhile is_operator) stk
              (rest.dropWhile is_operator) t
            rw [List.takeWhile_append_dropWhile] at hperm
            exact hperm

/-- Claim C1: the spec asserts that with `env = {x: Int(5)}`,
`evaluate("(x <- x + 1)", env)` returns `Int(6)` and afterwards
`env["x"] == Int(6)`.  The code instead tears `<-` into the two tokens `<`
and `-` during punctuation spacing, the reorderer emits them before any
operand, and the evaluator then pops an empty operand stack at the leading
`<` — a fatal stack underflow; no value is returned and the store binding of
`x` is untouched (this theorem records both facts). -/
theorem claim_C1 :
    evaluate "(x <- x + 1)" [("x", ⟨.INT, .int 5⟩)] = .error .stack_underflow ∧
    store_after (shunting_yard (evaluate_tokens "(x <- x + 1)")) []
      [("x", ⟨.INT, .int 5⟩)] = [("x", ⟨.INT, .int 5⟩)] :=
  ⟨rfl, rfl⟩

/-- Claim C2: the spec asserts both reorderer example contracts hold
exactly (`1 + 2 * sin 3` to `1 2 3 sin * +`, `magic 1 2 3 + 4 * 5` to
`1 2 3 magic 4 + 5 *`).  The code's juxtaposition loop tests
`is_operator(tokens[i + 1])` (not its negation) and copies the following
OPERATORS straight to the output, producing `+ 1 * 2 sin 3` and
`magic 1 2 + 3 * 4 5` instead. -/
theorem claim_C2 :
    shunting_yard ["1", "+", "2", "*", "sin", "3"] =
      ["+", "1", "*", "2", "sin", "3"] ∧
    shunting_yard ["magic", "1", "2", "3", "+", "4", "*", "5"] =
      ["magic", "1", "2", "+", "3", "*", "4", "5"] ∧
    (["+", "1", "*", "2", "sin", "3"] : List String) ≠
      ["1", "2", "3", "sin", "*", "+"] ∧
    (["magic", "1", "2", "+", "3", "*", "4", "5"] : List String) ≠
      ["1", "2", "3", "magic", "4", "+", "5", "*"] :=
  ⟨rfl, rfl, by decide, by decide⟩

/-- Claim C3: the spec asserts that copy-assigning `b` into `a` makes `a` a
full deep copy of `b` (same tag, same payload, no sharing).  `entity::operator=`
copies only `m_type` — the payload copy is commented out — so after
assigning `Str("hi")` into `Int(1)` the result carries the STR tag over the
old integer payload: not `b`'s payload, and a tag/payload mismatch. -/
theorem claim_C3 :
    entity_assign ⟨.INT, .int 1⟩ ⟨.STR, .str "hi"⟩ = ⟨.STR, .int 1⟩ ∧
    Value.int 1 ≠ Value.str "hi" ∧
    (Value.int 1).tag ≠ Tag.STR :=
  ⟨rfl, fun h => Value.noConfusion h, by decide⟩

/-- Claim C4: the spec asserts every dispatch function performs only
in-bounds accesses and in particular that `&&` on two non-empty equal-length
lists returns the elementwise result.  The `&&` list arm writes
`result[i] = ...` into a freshly constructed EMPTY vector, an out-of-bounds
write for every index, so `[1] && [1]` is a fatal failure (`none`) and not
the elementwise list; the scalar arm by contrast works. -/
theorem claim_C4 :
    entity_land (.list [.int 1]) (.list [.int 1]) = none ∧
    entity_land (.int 1) (.int 1) = some (.int 1) := by
  constructor
  · simp [entity_land, land_set, set_at]
  · simp [entity_land]

/-- Claim C5 counterexample: the claim requires the division-by-zero error
message to be exactly "Division by zero"; the source string carries a
trailing period, so the claimed value is not the produced one. -/
theorem claim_C5_counterexample :
    entity_div (.int 5) (.int 0) = .error "Division by zero." ∧
    Value.error "Division by zero." ≠ Value.error "Division by zero" :=
  ⟨by simp [entity_div], fun h => absurd (Value.error.inj h) (by decide)⟩

/-- Claim C5 (amended): `Int(5) / Int(0)` and `Int(5) % Int(0)` both yield
the Error value with message "Division by zero." (trailing period), never a
fatal failure, and for every pair of Int operands with nonzero right
operand `/` and `%` return the C++ quotient and remainder (truncation
toward zero). -/
theorem claim_C5 :
    entity_div (.int 5) (.int 0) = .error "Division by zero." ∧
    entity_mod (.int 5) (.int 0) = .error "Division by zero." ∧
    ∀ a b : Int, b ≠ 0 →
      entity_div (.int a) (.int b) = .int (a.tdiv b) ∧
      entity_mod (.int a) (.int b) = .int (a.tmod b) := by
  refine ⟨by simp [entity_div], by simp [entity_mod], ?_⟩
  intro a b hb
  exact ⟨by simp [entity_div, hb], by simp [entity_mod, hb]⟩

/-- Claim C5 witness: the amended theorem applied at 7 and 2. -/
theorem claim_C5_witness :
    entity_div (.int 7) (.int 2) = .int 3 ∧
    entity_mod (.int 7) (.int 2) = .int 1 := by
  have h := claim_C5.2.2 7 2 (by decide)
  have h1 : Int.tdiv 7 2 = 3 := by decide
  have h2 : Int.tmod 7 2 = 1 := by decide
  exact ⟨h1 ▸ h.1, h2 ▸ h.2⟩

/-- Claim C6: the spec asserts `v : l` prepends `v` onto the list `l` and
that the evaluator dispatches the token ":" to cons.  The source's
`operator_cons` APPENDS the left operand at the end (`emplace_back`), and
the evaluator's `fnmap` sends ":" to `YSH_CONCAT` and "," to `YSH_CONS`
(contradicting the enum's own comments `YSH_CONS, // :` and `YSH_ZIP, // ,`).
The non-List error half of the claim does hold: a Tuple right operand gets
the uniform operation error for `(:)`. -/
theorem claim_C6 :
    operator_cons (.int 0) (.list [.int 1]) = .list [.int 1, .int 0] ∧
    Value.list [.int 1, .int 0] ≠ Value.list [.int 0, .int 1] ∧
    function ":" = some .YSH_CONCAT ∧
    function "," = some .YSH_CONS ∧
    operator_cons (.int 0) (.tuple []) =
      .error (operation_error_msg "Int" ["Tuple"] "(:)" "") := by
  refine ⟨rfl, fun h => ?_, rfl, rfl, rfl⟩
  simp at h

/-- Claim C7: copy-assigning a Tuple with elements v1..vn onto an empty
destination produces exactly the reverse order vn..v1 (each element passes
through two entity copies, which cancel). -/
theorem claim_C7 : ∀ src : List Value, tuple_assign [] src = src.reverse := by
  intro src
  rw [tuple_assign_eq]
  simp

/-- Claim C8 counterexample: with a = (), b = (Int 1), c = (Int 2),
`concat(concat(a,b),c)` has elements 1,2 while `concat(a,concat(b,c))` has
elements 2,1, and the code's own tuple equality distinguishes them. -/
theorem claim_C8_counterexample :
    tuple_eq (tuple_concat (tuple_concat [] [Value.int 1]) [Value.int 2])
      (tuple_concat [] (tuple_concat [Value.int 1] [Value.int 2])) = some false :=
  rfl

/-- Claim C8 (amended): `tuple_t::concat` copy-constructs its result from
the right operand, and tuple copying reverses element order; hence
`concat(a,b)` yields a's elements followed by b's elements REVERSED, and
associativity fails in general — it does hold whenever the outer right
tuple is empty. -/
theorem claim_C8 : ∀ a b c : List Value,
    tuple_concat (tuple_concat a b) c = a ++ b.reverse ++ c.reverse ∧
    tuple_concat (tuple_concat a b) [] = tuple_concat a (tuple_concat b []) := by
  intro a b c
  constructor
  · rw [tuple_concat_eq, tuple_concat_eq]
  · rw [tuple_concat_eq, tuple_concat_eq, tuple_concat_eq, tuple_concat_eq]
    simp

/-- Claim C9: the spec asserts `tokenize(line)` terminates for every line,
in particular on `echo"123"`.  The scan loop of the `parse` coroutine never
advances the cursor past an ordinary character (the `default: break;` arm
changes nothing), so on `echo"123"` — whose first character is 'e' — the
scan state is a fixpoint and the loop, hence `tokenize`, never
terminates. -/
theorem claim_C9 :
    ∀ n : Nat, (scan_next ("echo\"123\"".data))^[n] scan_init = scan_init := by
  intro n
  induction n with
  | zero => rfl
  | succ n ih =>
      rw [Function.iterate_succ_apply]
      have hstep : scan_next ("echo\"123\"".data) scan_init = scan_init := rfl
      rw [hstep]
      exact ih

/-- Claim C10: for every token sequence containing neither "(" nor ")", the
shunting-yard output is a permutation of the input — no token dropped,
duplicated or invented (tokens routed through the operator stack are
drained at the end; tokens consumed by the juxtaposition loop are emitted
directly). -/
theorem claim_C10 : ∀ ts : List String,
    "(" ∉ ts → ")" ∉ ts → (shunting_yard ts).Perm ts := by
  intro ts h1 h2
  have h := shunting_yard_go_perm ts.length ts [] [] le_rfl h1 h2
  simpa [shunting_yard] using h

/-- Claim C10 witness: the permutation theorem applied to the paren-free
input ["1", "+", "2"]. -/
theorem claim_C10_witness : (shunting_yard ["1", "+", "2"]).Perm ["1", "+", "2"] :=
  claim_C10 ["1", "+", "2"] (by decide) (by decide)

end Ysh
